import Mathlib

/-!
Shallow embedding of the product CRUD service in `routes/products.py`.

The service stores `Product` rows in a relational table and exposes five
operations (List, Get, Create, Update, Delete).  We model the table as a
`List Product`, the per-request database session as explicit state passing,
and each route handler as a pure function from its inputs and the current
table to a `Response` plus the new table.  Server-generated values (the
fresh UUID from `uuid.uuid4()`, the clock behind `now()` and
`datetime.datetime.now()`) are passed as explicit parameters.  Storage
faults (`SQLAlchemyError`) are external events of the database engine and
are outside the model: the modelled store never fails, so the 500 branches
of the handlers are unreachable here.  Handlers that read the store also
return a `Bool` recording whether a storage query was executed on that
request.
-/

namespace ShoppyApi

/-- One row of the `products` table (`class Product(Base)` in
`routes/products.py`): a 128-bit id held as a `Nat`, a text name, an
integer price, and two timestamps held as abstract `Nat` clock values. -/
structure Product where
  id : Nat
  name : String
  price : Int
  created_at : Nat
  updated_at : Nat
deriving DecidableEq

/-- Request body of Create (`class ProductCreate(BaseModel)`). -/
structure ProductCreate where
  name : String
  price : Int
deriving DecidableEq

/-- Pydantic validation of a Create body: `name` between 1 and 100
characters, `price` strictly positive.  FastAPI runs this before the
handler; invalid bodies never reach `create_product`. -/
def ProductCreate.valid (c : ProductCreate) : Bool :=
  1 ≤ c.name.length && c.name.length ≤ 100 && 0 < c.price

/-- Request body of Update (`class ProductUpdate(BaseModel)`): both fields
optional; `none` models a field absent from the request body, so
`dict(exclude_unset=True)` on this model keeps exactly the `some` fields.
(A field explicitly set to JSON `null` would be written to a
`nullable=False` column and rejected by the database; such bodies are
outside this model.) -/
structure ProductUpdate where
  name : Option String
  price : Option Int
deriving DecidableEq

/-- Pydantic validation of an Update body: each field, when present, must
satisfy the Create constraints.  An empty body is valid at this layer. -/
def ProductUpdate.valid (u : ProductUpdate) : Bool :=
  (match u.name with
   | none => true
   | some n => 1 ≤ n.length && n.length ≤ 100) &&
  (match u.price with
   | none => true
   | some v => 0 < v)

/-- An HTTP response of this service: a single-record JSON body, a JSON
list body, a `message` confirmation object, or the `detail` object that
FastAPI produces for a raised `HTTPException` (carrying whatever status
code the exception was raised with). -/
inductive Response where
  | record (status : Nat) (p : Product)
  | records (status : Nat) (ps : List Product)
  | message (status : Nat) (msg : String)
  | detail (status : Nat) (msg : String)
deriving DecidableEq

/-- Whether a response body is a JSON list of records. -/
def Response.isListBody : Response → Bool
  | .records _ _ => true
  | _ => false

/-! ### Model of `uuid.UUID(product_id)` (Python standard library)

The handlers validate path ids with `uuid.UUID(product_id)`.  CPython's
constructor removes every occurrence of `urn:` and then of `uuid:`, strips
curly braces from both ends, removes every dash, and then requires exactly
32 hexadecimal digits, whose value is the 128-bit id.  (Exotic tolerances
of Python's `int(x, 16)` such as embedded underscores are not modelled.) -/

/-- Remove every occurrence of `urn:`, scanning left to right without
rescanning output, as Python's `str.replace("urn:", "")` does. -/
def removeURN : List Char → List Char
  | 'u' :: 'r' :: 'n' :: ':' :: rest => removeURN rest
  | c :: cs => c :: removeURN cs
  | [] => []

/-- Remove every occurrence of `uuid:`, as `str.replace("uuid:", "")`. -/
def removeUUIDTag : List Char → List Char
  | 'u' :: 'u' :: 'i' :: 'd' :: ':' :: rest => removeUUIDTag rest
  | c :: cs => c :: removeUUIDTag cs
  | [] => []

/-- Remove every dash, as `str.replace("-", "")`. -/
def removeDash : List Char → List Char
  | '-' :: rest => removeDash rest
  | c :: cs => c :: removeDash cs
  | [] => []

/-- A curly brace, the character set of Python's `.strip` call. -/
def isUUIDBrace (c : Char) : Bool := c == '{' || c == '}'

/-- Strip leading and trailing curly braces, as Python's `.strip` with a
brace character set does. -/
def stripBraces (l : List Char) : List Char :=
  ((l.dropWhile isUUIDBrace).reverse.dropWhile isUUIDBrace).reverse

/-- Value of one hexadecimal digit, upper or lower case. -/
def hexDigitVal (c : Char) : Option Nat :=
  if '0' ≤ c ∧ c ≤ '9' then some (c.toNat - '0'.toNat)
  else if 'a' ≤ c ∧ c ≤ 'f' then some (c.toNat - 'a'.toNat + 10)
  else if 'A' ≤ c ∧ c ≤ 'F' then some (c.toNat - 'A'.toNat + 10)
  else none

/-- Value of a hexadecimal digit string, `none` on a non-hex character. -/
def hexListValAux : List Char → Nat → Option Nat
  | [], acc => some acc
  | c :: cs, acc =>
    match hexDigitVal c with
    | none => none
    | some d => hexListValAux cs (acc * 16 + d)

/-- Value of a hexadecimal digit string starting from zero. -/
def hexListVal (l : List Char) : Option Nat := hexListValAux l 0

/-- Model of `uuid.UUID(s)`: `some` of the 128-bit value when `s` is a
syntactically valid identifier, `none` when the constructor raises
`ValueError`. -/
def uuidParse (s : String) : Option Nat :=
  let h := removeUUIDTag (removeURN s.data)
  let h := stripBraces h
  let h := removeDash h
  if h.length = 32 then hexListVal h else none

/-! ### The five route handlers -/

/-- Model of the textual `order_by` column: the comparison the storage
layer derives from the column name.  Resolution of the name to a column is
the database engine's concern and is abstracted as this parameter. -/
def insertLe (le : Product → Product → Bool) (p : Product) : List Product → List Product
  | [] => [p]
  | q :: qs => if le p q then p :: q :: qs else q :: insertLe le p qs

/-- Sorted view of the table under the `order_by` comparison, modelling
the `ORDER BY` clause of the list query. -/
def sortLe (le : Product → Product → Bool) (db : List Product) : List Product :=
  db.foldr (insertLe le) []

/-- Handler of `GET /products` (`get_products`): runs the query
`order_by(order_by).limit(limit).offset(offset).all()` — modelled as sort,
then drop `offset`, then take `limit` — and, when the result is empty,
raises `HTTPException(status_code=200, detail="No products found")`,
which FastAPI renders as a status-200 response whose body is the `detail`
object.  The `page` parameter is accepted but never used. -/
def get_products (page : Int) (limit offset : Nat)
    (le : Product → Product → Bool) (db : List Product) : Response :=
  let _ := page
  let products := ((sortLe le db).drop offset).take limit
  if products.isEmpty then Response.detail 200 "No products found"
  else Response.records 200 products

/-- Handler of `GET /products/{product_id}` (`get_product`): validates
the id string before any query (400 on failure, with no query executed),
then queries by primary key; `first()` of zero rows gives 404, otherwise
the record is returned with 200.  The second component records whether a
storage query ran. -/
def get_product (product_id : String) (db : List Product) : Response × Bool :=
  match uuidParse product_id with
  | none => (Response.detail 400 "Invalid product ID format", false)
  | some uid =>
    match db.find? (fun p => p.id == uid) with
    | none => (Response.detail 404 "Product not found", true)
    | some p => (Response.record 200 p, true)

/-- Handler of `POST /products` (`create_product`): builds a row from the
validated body with a fresh `uuid.uuid4()` id (the `newId` parameter) and
server-assigned timestamps (`now`), inserts and commits it.  A primary-key
collision is the `IntegrityError` branch: 409 and rollback. -/
def create_product (product : ProductCreate) (newId now : Nat)
    (db : List Product) : Response × List Product :=
  if (db.find? (fun p => p.id == newId)).isSome then
    (Response.detail 409 "Product creation failed due to constraint violation", db)
  else
    let new_product : Product :=
      { id := newId, name := product.name, price := product.price,
        created_at := now, updated_at := now }
    (Response.record 201 new_product, db ++ [new_product])

/-- Route of `POST /products`: FastAPI validates the body against
`ProductCreate` before the handler and answers 422 itself on failure. -/
def route_create (product : ProductCreate) (newId now : Nat)
    (db : List Product) : Response × List Product :=
  if product.valid then create_product product newId now db
  else (Response.detail 422 "validation error", db)

/-- The row produced by `setattr` over the supplied fields followed by
`product_to_update.updated_at = datetime.datetime.now()`. -/
def applyUpdate (u : ProductUpdate) (now : Nat) (p : Product) : Product :=
  { p with
    name := u.name.getD p.name,
    price := u.price.getD p.price,
    updated_at := now }

/-- Replace the first row carrying `uid` — the single row object fetched
by `first()` and mutated in place. -/
def setFirst (uid : Nat) (p2 : Product) : List Product → List Product
  | [] => []
  | q :: qs => if q.id == uid then p2 :: qs else q :: setFirst uid p2 qs

/-- Handler of `PATCH /products/{product_id}` (`update_product`):
validates the id string before any query (400, no query), then fetches the
row by primary key (404 when absent — the fetch runs before the
empty-body check), then rejects an empty field set with 400, and otherwise
merges the supplied fields onto the row, refreshes `updated_at`, and
commits.  The last component records whether a storage query ran. -/
def update_product (product_id : String) (product : ProductUpdate) (now : Nat)
    (db : List Product) : Response × List Product × Bool :=
  match uuidParse product_id with
  | none => (Response.detail 400 "Invalid product ID format", db, false)
  | some uid =>
    match db.find? (fun p => p.id == uid) with
    | none => (Response.detail 404 "Product not found", db, true)
    | some product_to_update =>
      if product.name.isNone && product.price.isNone then
        (Response.detail 400 "No valid fields provided for update", db, true)
      else
        let p2 := applyUpdate product now product_to_update
        (Response.record 200 p2, setFirst uid p2 db, true)

/-- Route of `PATCH /products/{product_id}`: FastAPI validates the body
against `ProductUpdate` before the handler and answers 422 on failure. -/
def route_update (product_id : String) (product : ProductUpdate) (now : Nat)
    (db : List Product) : Response × List Product × Bool :=
  if product.valid then update_product product_id product now db
  else (Response.detail 422 "validation error", db, false)

/-- Handler of `DELETE /products/{product_id}` (`delete_product`):
validates the id string before any query (400, no query), fetches the row
by primary key (404 when absent), deletes that one row, commits, and
returns the confirmation payload. -/
def delete_product (product_id : String) (db : List Product) :
    Response × List Product × Bool :=
  match uuidParse product_id with
  | none => (Response.detail 400 "Invalid product ID format", db, false)
  | some uid =>
    match db.find? (fun p => p.id == uid) with
    | none => (Response.detail 404 "Product not found", db, true)
    | some _ =>
      (Response.message 200 "Product deleted successfully",
        db.eraseP (fun p => p.id == uid), true)

/-! ### Operation sequences over the store -/

/-- One client request, with its server-generated values. -/
inductive Op where
  | list (page : Int) (limit offset : Nat) (le : Product → Product → Bool)
  | get (pid : String)
  | create (c : ProductCreate) (newId now : Nat)
  | update (pid : String) (u : ProductUpdate) (now : Nat)
  | delete (pid : String)

/-- The table after one request.  List and Get never write. -/
def step (db : List Product) : Op → List Product
  | .list _ _ _ _ => db
  | .get _ => db
  | .create c i t => (route_create c i t db).2
  | .update pid u t => (route_update pid u t db).2.1
  | .delete pid => (delete_product pid db).2.1

/-- The table after a sequence of requests. -/
def run (db : List Product) : List Op → List Product
  | [] => db
  | op :: ops => run (step db op) ops

/-- The storage invariant of the spec: every stored row has a strictly
positive price and a non-empty name. -/
def Inv (db : List Product) : Prop :=
  ∀ p ∈ db, 0 < p.price ∧ p.name ≠ ""

/-! ### Theorems -/

/-- C9: the List response does not depend on the `page` parameter: two
requests agreeing on limit, offset and order_by but differing in page get
equal responses, on every storage state. -/
theorem list_ignores_page (p₁ p₂ : Int) (limit offset : Nat)
    (le : Product → Product → Bool) (db : List Product) :
    get_products p₁ limit offset le db = get_products p₂ limit offset le db := rfl

/-- C7: on a string that is not a syntactically valid 128-bit identifier,
Get, Update and Delete each answer 400 Bad Request, leave the store
untouched, and execute no storage query (the query flag is `false`). -/
theorem invalid_id_bad_request_no_query (s : String) (u : ProductUpdate)
    (now : Nat) (db : List Product) (h : uuidParse s = none) :
    get_product s db = (Response.detail 400 "Invalid product ID format", false) ∧
    update_product s u now db = (Response.detail 400 "Invalid product ID format", db, false) ∧
    delete_product s db = (Response.detail 400 "Invalid product ID format", db, false) := by
  refine ⟨?_, ?_, ?_⟩ <;> simp [get_product, update_product, delete_product, h]

/-- Witness for C7 at the concrete malformed id `"hello"` on a one-row
store. -/
theorem invalid_id_bad_request_no_query_witness :
    get_product "hello" [⟨1, "Widget", 500, 0, 0⟩]
      = (Response.detail 400 "Invalid product ID format", false) ∧
    update_product "hello" ⟨none, some 600⟩ 5 [⟨1, "Widget", 500, 0, 0⟩]
      = (Response.detail 400 "Invalid product ID format", [⟨1, "Widget", 500, 0, 0⟩], false) ∧
    delete_product "hello" [⟨1, "Widget", 500, 0, 0⟩]
      = (Response.detail 400 "Invalid product ID format", [⟨1, "Widget", 500, 0, 0⟩], false) :=
  invalid_id_bad_request_no_query "hello" ⟨none, some 600⟩ 5
    [⟨1, "Widget", 500, 0, 0⟩] (by decide)

/-- C6: on a syntactically valid identifier that no stored row carries,
Get, Update and Delete each answer 404 Not Found (and so never the 500
internal error), leaving the store untouched. -/
theorem absent_id_not_found (s : String) (uid : Nat) (u : ProductUpdate)
    (now : Nat) (db : List Product) (hs : uuidParse s = some uid)
    (h : db.find? (fun p => p.id == uid) = none) :
    get_product s db = (Response.detail 404 "Product not found", true) ∧
    update_product s u now db = (Response.detail 404 "Product not found", db, true) ∧
    delete_product s db = (Response.detail 404 "Product not found", db, true) := by
  refine ⟨?_, ?_, ?_⟩ <;> simp [get_product, update_product, delete_product, hs, h]

/-- Witness for C6 at a concrete valid id on a store not containing it. -/
theorem absent_id_not_found_witness :
    get_product "00000000-0000-0000-0000-000000000002" [⟨1, "Widget", 500, 0, 0⟩]
      = (Response.detail 404 "Product not found", true) ∧
    update_product "00000000-0000-0000-0000-000000000002" ⟨none, some 600⟩ 5
        [⟨1, "Widget", 500, 0, 0⟩]
      = (Response.detail 404 "Product not found", [⟨1, "Widget", 500, 0, 0⟩], true) ∧
    delete_product "00000000-0000-0000-0000-000000000002" [⟨1, "Widget", 500, 0, 0⟩]
      = (Response.detail 404 "Product not found", [⟨1, "Widget", 500, 0, 0⟩], true) :=
  absent_id_not_found "00000000-0000-0000-0000-000000000002" 2 ⟨none, some 600⟩ 5
    [⟨1, "Widget", 500, 0, 0⟩] (by decide) (by decide)

/-- C10: an Update with an empty body on a valid identifier absent from
storage answers 404, not the empty-payload 400: the existence lookup runs
(the query flag is `true`) and decides the outcome before the
empty-field-set check. -/
theorem empty_update_absent_id_not_found (s : String) (uid now : Nat)
    (db : List Product) (hs : uuidParse s = some uid)
    (h : db.find? (fun p => p.id == uid) = none) :
    route_update s ⟨none, none⟩ now db
      = (Response.detail 404 "Product not found", db, true) := by
  simp [route_update, ProductUpdate.valid, update_product, hs, h]

/-- Witness for C10 at a concrete valid id on a store not containing it. -/
theorem empty_update_absent_id_not_found_witness :
    route_update "00000000-0000-0000-0000-000000000002" ⟨none, none⟩ 5
        [⟨1, "Widget", 500, 0, 0⟩]
      = (Response.detail 404 "Product not found", [⟨1, "Widget", 500, 0, 0⟩], true) :=
  empty_update_absent_id_not_found "00000000-0000-0000-0000-000000000002" 2 5
    [⟨1, "Widget", 500, 0, 0⟩] (by decide) (by decide)

/-- C4, counterexample: an empty-body Update is not resolved before the
storage lookup.  On a one-row store with the row's own id, the handler
answers 400 only after a storage query has run (query flag `true`); and on
an id absent from the store, the same empty-body Update answers 404, not
400. -/
theorem empty_update_not_before_query_cex :
    (route_update "00000000-0000-0000-0000-000000000001" ⟨none, none⟩ 5
        [⟨1, "Widget", 500, 0, 0⟩]).2.2 = true ∧
    route_update "00000000-0000-0000-0000-000000000002" ⟨none, none⟩ 5
        [⟨1, "Widget", 500, 0, 0⟩]
      = (Response.detail 404 "Product not found", [⟨1, "Widget", 500, 0, 0⟩], true) := by
  decide

/-- C4, amended: an Update whose parsed body yields zero fields, on an id
present in storage, answers 400 and leaves the store — every field of the
record, `updated_at` included — unchanged; but the error is resolved only
after the existence lookup has queried storage, and on an id absent from
storage the outcome is 404 instead. -/
theorem empty_update_rejected (s : String) (uid now : Nat) (db : List Product)
    (p : Product) (hs : uuidParse s = some uid)
    (h : db.find? (fun q => q.id == uid) = some p) :
    route_update s ⟨none, none⟩ now db
      = (Response.detail 400 "No valid fields provided for update", db, true) := by
  simp [route_update, ProductUpdate.valid, update_product, hs, h]

/-- Witness for the amended C4 on a concrete one-row store. -/
theorem empty_update_rejected_witness :
    route_update "00000000-0000-0000-0000-000000000001" ⟨none, none⟩ 5
        [⟨1, "Widget", 500, 0, 0⟩]
      = (Response.detail 400 "No valid fields provided for update",
         [⟨1, "Widget", 500, 0, 0⟩], true) :=
  empty_update_rejected "00000000-0000-0000-0000-000000000001" 1 5
    [⟨1, "Widget", 500, 0, 0⟩] ⟨1, "Widget", 500, 0, 0⟩ (by decide) (by decide)

/-- C5: a valid Update supplying only `price` on a stored row answers 200
with, and stores, a record whose price is the supplied value and whose
`updated_at` is the current time, while `id`, `name` and `created_at` keep
their prior values — the omitted field is left untouched. -/
theorem update_price_only_frame (s : String) (uid : Nat) (v : Int) (now : Nat)
    (db : List Product) (p : Product) (hs : uuidParse s = some uid)
    (h : db.find? (fun q => q.id == uid) = some p) (hv : 0 < v) :
    route_update s ⟨none, some v⟩ now db
      = (Response.record 200
           { id := p.id, name := p.name, price := v,
             created_at := p.created_at, updated_at := now },
         setFirst uid
           { id := p.id, name := p.name, price := v,
             created_at := p.created_at, updated_at := now } db,
         true) := by
  simp [route_update, ProductUpdate.valid, hv, update_product, hs, h, applyUpdate]

/-- Witness for C5 on a concrete one-row store: price 500 becomes 600,
`updated_at` becomes 5, name and `created_at` stay. -/
theorem update_price_only_frame_witness :
    route_update "00000000-0000-0000-0000-000000000001" ⟨none, some 600⟩ 5
        [⟨1, "Widget", 500, 0, 0⟩]
      = (Response.record 200 ⟨1, "Widget", 600, 0, 5⟩,
         setFirst 1 ⟨1, "Widget", 600, 0, 5⟩ [⟨1, "Widget", 500, 0, 0⟩], true) :=
  update_price_only_frame "00000000-0000-0000-0000-000000000001" 1 600 5
    [⟨1, "Widget", 500, 0, 0⟩] ⟨1, "Widget", 500, 0, 0⟩ (by decide) (by decide) (by decide)

/-- C3, counterexample: on an empty store the List operation does not
return a list body.  It answers status 200, but the body is the `detail`
object of the raised `HTTPException`, not a JSON list. -/
theorem list_empty_no_list_body_cex :
    get_products 1 10 0 (fun _ _ => true) [] = Response.detail 200 "No products found" ∧
    (get_products 1 10 0 (fun _ _ => true) []).isListBody = false := by
  decide

/-- C3, amended: whenever zero rows match the list query, List answers
with success status 200 — never an error status — but its body is the
detail object `"No products found"` produced by raising `HTTPException`
with status 200, not a (possibly empty) list body. -/
theorem list_zero_match_detail (page : Int) (limit offset : Nat)
    (le : Product → Product → Bool) (db : List Product)
    (h : ((sortLe le db).drop offset).take limit = []) :
    get_products page limit offset le db = Response.detail 200 "No products found" ∧
    (get_products page limit offset le db).isListBody = false := by
  constructor <;> simp [get_products, h, Response.isListBody]

/-- Witness for the amended C3 on the empty store. -/
theorem list_zero_match_detail_witness :
    get_products 1 10 0 (fun _ _ => true) [] = Response.detail 200 "No products found" ∧
    (get_products 1 10 0 (fun _ _ => true) []).isListBody = false :=
  list_zero_match_detail 1 10 0 (fun _ _ => true) [] (by decide)

/-- C1: a Create with a valid body (name of 1 to 100 characters, price
strictly positive) and a fresh generated id answers 201 with a record
carrying exactly the input name and price, and a subsequent Get on the
returned id answers 200 with that same record. -/
theorem create_then_get (c : ProductCreate) (newId now : Nat) (s : String)
    (db : List Product) (hv : c.valid = true)
    (hfresh : ∀ p ∈ db, p.id ≠ newId) (hs : uuidParse s = some newId) :
    route_create c newId now db
      = (Response.record 201 ⟨newId, c.name, c.price, now, now⟩,
         db ++ [⟨newId, c.name, c.price, now, now⟩]) ∧
    get_product s (route_create c newId now db).2
      = (Response.record 200 ⟨newId, c.name, c.price, now, now⟩, true) := by
  have hnone : db.find? (fun p => p.id == newId) = none := by
    rw [List.find?_eq_none]
    intro x hx
    simp [hfresh x hx]
  constructor
  · simp [route_create, hv, create_product, hnone]
  · simp [route_create, hv, create_product, get_product, hs, hnone, List.find?_append]

/-- Witness for C1: creating Widget at price 500 in the empty store, then
getting it back through its canonical id string. -/
theorem create_then_get_witness :
    route_create ⟨"Widget", 500⟩ 1 0 []
      = (Response.record 201 ⟨1, "Widget", 500, 0, 0⟩, [⟨1, "Widget", 500, 0, 0⟩]) ∧
    get_product "00000000-0000-0000-0000-000000000001" (route_create ⟨"Widget", 500⟩ 1 0 []).2
      = (Response.record 200 ⟨1, "Widget", 500, 0, 0⟩, true) :=
  create_then_get ⟨"Widget", 500⟩ 1 0 "00000000-0000-0000-0000-000000000001" []
    (by decide) (by decide) (by decide)

/-- Erasing the row found under a key from a table whose primary keys are
distinct leaves no row under that key. -/
theorem find?_eraseP_eq_none (uid : Nat) (db : List Product) (p : Product)
    (hnd : (db.map Product.id).Nodup)
    (h : db.find? (fun q => q.id == uid) = some p) :
    (db.eraseP (fun q => q.id == uid)).find? (fun q => q.id == uid) = none := by
  induction db with
  | nil => simp at h
  | cons q qs ih =>
    rw [List.map_cons, List.nodup_cons] at hnd
    by_cases hq : (q.id == uid) = true
    · rw [List.eraseP_cons_of_pos (p := fun r : Product => r.id == uid) hq, List.find?_eq_none]
      intro x hx hbx
      apply hnd.1
      rw [List.mem_map]
      refine ⟨x, hx, ?_⟩
      have h1 : q.id = uid := by simpa using hq
      have h2 : x.id = uid := by simpa using hbx
      omega
    · rw [List.eraseP_cons_of_neg (p := fun r : Product => r.id == uid) hq,
        List.find?_cons_of_neg (p := fun r : Product => r.id == uid) _ hq]
      rw [List.find?_cons_of_neg (p := fun r : Product => r.id == uid) _ hq] at h
      exact ih hnd.2 h

/-- C8: after a Delete has succeeded with the confirmation payload, a
second Delete on the same id string answers 404 Not Found, not a repeat
success (the store, whose primary keys are distinct, no longer carries the
row). -/
theorem delete_twice_not_found (s : String) (db db' : List Product)
    (hnd : (db.map Product.id).Nodup)
    (h : delete_product s db
          = (Response.message 200 "Product deleted successfully", db', true)) :
    delete_product s db' = (Response.detail 404 "Product not found", db', true) := by
  cases hs : uuidParse s with
  | none => simp [delete_product, hs] at h
  | some uid =>
    cases hf : db.find? (fun p => p.id == uid) with
    | none => simp [delete_product, hs, hf] at h
    | some p =>
      simp only [delete_product, hs, hf] at h
      have hdb : db.eraseP (fun q => q.id == uid) = db' :=
        congrArg (fun t : Response × List Product × Bool => t.2.1) h
      have hfind : db'.find? (fun q => q.id == uid) = none := by
        rw [← hdb]
        exact find?_eraseP_eq_none uid db p hnd hf
      simp [delete_product, hs, hfind]

/-- Witness for C8: deleting the only row, then deleting it again. -/
theorem delete_twice_not_found_witness :
    delete_product "00000000-0000-0000-0000-000000000001" []
      = (Response.detail 404 "Product not found", [], true) :=
  delete_twice_not_found "00000000-0000-0000-0000-000000000001"
    [⟨1, "Widget", 500, 0, 0⟩] [] (by decide) (by decide)

/-- A row of the table after replacing the first row under a key is the
replacement or a row of the original table. -/
theorem mem_setFirst {q p2 : Product} {uid : Nat} {db : List Product}
    (h : q ∈ setFirst uid p2 db) : q = p2 ∨ q ∈ db := by
  induction db with
  | nil => simp [setFirst] at h
  | cons r rs ih =>
    rw [setFirst] at h
    by_cases hr : (r.id == uid) = true
    · rw [if_pos hr] at h
      rcases List.mem_cons.mp h with h | h
      · exact Or.inl h
      · exact Or.inr (List.mem_cons_of_mem _ h)
    · rw [if_neg hr] at h
      rcases List.mem_cons.mp h with h | h
      · exact Or.inr (h ▸ List.mem_cons_self r rs)
      · rcases ih h with h | h
        · exact Or.inl h
        · exact Or.inr (List.mem_cons_of_mem _ h)

/-- A valid Create body has a positive price and a non-empty name. -/
theorem valid_create_facts {c : ProductCreate} (hv : c.valid = true) :
    0 < c.price ∧ c.name ≠ "" := by
  unfold ProductCreate.valid at hv
  simp only [Bool.and_eq_true, decide_eq_true_eq] at hv
  refine ⟨hv.2, fun he => ?_⟩
  have h1 := hv.1.1
  rw [he] at h1
  exact absurd h1 (by decide)

/-- A price supplied in a valid Update body is positive. -/
theorem valid_update_price {u : ProductUpdate} {v : Int} (hv : u.valid = true)
    (h : u.price = some v) : 0 < v := by
  unfold ProductUpdate.valid at hv
  rw [Bool.and_eq_true, h] at hv
  simpa using hv.2

/-- A name supplied in a valid Update body is non-empty. -/
theorem valid_update_name {u : ProductUpdate} {n : String} (hv : u.valid = true)
    (h : u.name = some n) : n ≠ "" := by
  unfold ProductUpdate.valid at hv
  rw [Bool.and_eq_true, h] at hv
  have h1 : 1 ≤ n.length := by
    have := hv.1
    simp only [Bool.and_eq_true, decide_eq_true_eq] at this
    exact this.1
  intro he
  rw [he] at h1
  exact absurd h1 (by decide)

/-- The Create route preserves the storage invariant. -/
theorem inv_create (c : ProductCreate) (i t : Nat) (db : List Product)
    (h : Inv db) : Inv (route_create c i t db).2 := by
  unfold route_create
  by_cases hv : c.valid = true
  · rw [if_pos hv]
    unfold create_product
    by_cases hcol : (db.find? (fun p => p.id == i)).isSome = true
    · rw [if_pos hcol]; exact h
    · rw [if_neg hcol]
      show Inv (db ++ [⟨i, c.name, c.price, t, t⟩])
      intro q hq
      rcases List.mem_append.mp hq with hq | hq
      · exact h q hq
      · have hq2 : q = ⟨i, c.name, c.price, t, t⟩ := by simpa using hq
        subst hq2
        exact valid_create_facts hv
  · rw [if_neg hv]; exact h

/-- The Update route preserves the storage invariant. -/
theorem inv_update (pid : String) (u : ProductUpdate) (t : Nat)
    (db : List Product) (h : Inv db) : Inv (route_update pid u t db).2.1 := by
  unfold route_update
  by_cases hv : u.valid = true
  · rw [if_pos hv]
    cases hs : uuidParse pid with
    | none => simp only [update_product, hs]; exact h
    | some uid =>
      cases hf : db.find? (fun p => p.id == uid) with
      | none => simp only [update_product, hs, hf]; exact h
      | some p =>
        simp only [update_product, hs, hf]
        by_cases he : (u.name.isNone && u.price.isNone) = true
        · rw [if_pos he]; exact h
        · rw [if_neg he]
          show Inv (setFirst uid (applyUpdate u t p) db)
          intro q hq
          rcases mem_setFirst hq with hq | hq
          · subst hq
            have hp := h p (List.mem_of_find?_eq_some hf)
            constructor
            · show 0 < u.price.getD p.price
              cases hpr : u.price with
              | none => simpa using hp.1
              | some v => simpa using valid_update_price hv hpr
            · show u.name.getD p.name ≠ ""
              cases hn : u.name with
              | none => simpa using hp.2
              | some n => simpa using valid_update_name hv hn
          · exact h q hq
  · rw [if_neg hv]; exact h

/-- The Delete handler preserves the storage invariant. -/
theorem inv_delete (pid : String) (db : List Product) (h : Inv db) :
    Inv (delete_product pid db).2.1 := by
  cases hs : uuidParse pid with
  | none => simp only [delete_product, hs]; exact h
  | some uid =>
    cases hf : db.find? (fun p => p.id == uid) with
    | none => simp only [delete_product, hs, hf]; exact h
    | some p =>
      simp only [delete_product, hs, hf]
      show Inv (db.eraseP (fun r => r.id == uid))
      intro q hq
      exact h q (List.mem_of_mem_eraseP hq)

/-- One request preserves the storage invariant. -/
theorem inv_step (db : List Product) (op : Op) (h : Inv db) :
    Inv (step db op) := by
  cases op with
  | list _ _ _ _ => exact h
  | get _ => exact h
  | create c i t => exact inv_create c i t db h
  | update pid u t => exact inv_update pid u t db h
  | delete pid => exact inv_delete pid db h

/-- Any request sequence preserves the storage invariant. -/
theorem inv_run (db : List Product) (ops : List Op) (h : Inv db) :
    Inv (run db ops) := by
  induction ops generalizing db with
  | nil => exact h
  | cons op ops ih => exact ih _ (inv_step db op h)

/-- C2: from any store in which every row has positive price and
non-empty name, each of the five operations — and hence every reachable
sequence of operations — leaves a store in which every row still has
positive price and non-empty name. -/
theorem storage_invariant (db : List Product) (h : Inv db) :
    (∀ op, Inv (step db op)) ∧ ∀ ops, Inv (run db ops) :=
  ⟨fun op => inv_step db op h, fun ops => inv_run db ops h⟩

/-- Witness for C2: a create-update-delete sequence from the empty
store. -/
theorem storage_invariant_witness :
    Inv (run [] [Op.create ⟨"Widget", 500⟩ 1 0,
                 Op.update "00000000-0000-0000-0000-000000000001" ⟨none, some 600⟩ 2,
                 Op.delete "00000000-0000-0000-0000-000000000001"]) :=
  (storage_invariant [] (by simp [Inv])).2 _

end ShoppyApi
